import Mathlib

/-!
Verification of the video deepfake-analysis pipeline
(`backend/app/services/deepfake_detection.py`).

The pipeline is embedded shallowly:
* Python floats are idealised as real numbers (inputs such as landmark
  coordinates and detector confidences are arbitrary reals; the verdict
  synthesizer is stated generically over any linear ordered field so that
  its theorems can also be instantiated at `ℚ` for executable witnesses);
* the OpenCV capture is a record holding the `isOpened` flag, the metadata
  frame count, the fps, and the list of per-frame results of
  `_analyze_frame` (the MediaPipe feature extractor is an external
  collaborator: the loop only consumes its per-frame output);
* Python `dict` results become records / an inductive with an error arm;
* exceptions become `Except`.
-/

/-- `VerificationVerdict` from `backend/app/models/schemas.py`. -/
inductive VerificationVerdict where
  | REAL
  | FAKE
  | INCONCLUSIVE
deriving DecidableEq

/-- A single MediaPipe landmark `(lm.x, lm.y, lm.z)`. -/
def Point3 : Type := ℝ × ℝ × ℝ

/-- The landmark list built in `_analyze_frame`. -/
def Landmarks : Type := List Point3

/-- Result dictionary of `_analyze_frame` for one frame: `has_face`,
`face_quality`, `landmarks` (a list, or Python `None`), `face_count`. -/
structure FrameAnalysis where
  has_face : Bool
  face_quality : ℝ
  landmarks : Option Landmarks
  face_count : ℕ

/-- The `cv2.VideoCapture` collaborator: whether it opened, the metadata
frame count and fps, and the stream of frames it will yield — represented
by the `_analyze_frame` output for each frame, since pixel data is only
ever passed to the external feature extractor. -/
structure VideoCapture where
  opened : Bool
  frame_count : ℕ
  fps : ℝ
  frames : List FrameAnalysis

/-- The successful result dictionary built at the end of `_analyze_video`.
Generic in the number type so the verdict synthesizer can be stated over
any linear ordered field. -/
structure AnalysisOk (α : Type) where
  total_frames : ℕ
  analyzed_frames : ℕ
  duration : α
  face_detected_frames : ℕ
  average_face_quality : α
  landmark_stability : α
  quality_variance : α

/-- Result of `_analyze_video`: either the `{'error': str(e)}` dictionary
or the full metrics dictionary. -/
inductive AnalysisDict (α : Type) where
  | err : String → AnalysisDict α
  | ok : AnalysisOk α → AnalysisDict α

/-- Python truthiness of a `list`-or-`None` value: `None` and `[]` are
falsy, a non-empty list is truthy. -/
def isTruthy {β : Type} : Option (List β) → Bool
  | none => false
  | some [] => false
  | some (_ :: _) => true

/-- `np.mean` on a list of reals: sum divided by length. -/
noncomputable def npMean (l : List ℝ) : ℝ := l.sum / l.length

/-- `np.var` on a list of reals: population variance, the mean of the
squared deviations from the mean. -/
noncomputable def npVar (l : List ℝ) : ℝ :=
  npMean (l.map (fun x => (x - npMean l) ^ 2))

/-- `np.linalg.norm(curr_point - prev_point)` on the 2-vectors made of the
first two coordinates: the Euclidean distance in the plane. -/
noncomputable def euclidDistXY (p q : Point3) : ℝ :=
  Real.sqrt ((q.1 - p.1) ^ 2 + (q.2.1 - p.2.1) ^ 2)

/-- The fixed key facial point indices of `_calculate_landmark_stability`. -/
def key_indices : List ℕ := [0, 17, 33, 61, 78, 93, 132, 164, 172, 187]

/-- `_calculate_landmark_stability`: Python-truthiness guard, then collect
the movement of each key index lying inside both landmark lists, return
`1.0` if none, else the clamped inverse of the scaled average movement.
The `try/except` is dead in this pure embedding (no operation throws). -/
noncomputable def calculate_landmark_stability
    (prev_landmarks curr_landmarks : Option Landmarks) : ℝ :=
  if !(isTruthy prev_landmarks) || !(isTruthy curr_landmarks) then 1
  else
    let prev := prev_landmarks.getD []
    let curr := curr_landmarks.getD []
    let movements : List ℝ := key_indices.filterMap (fun idx =>
      if idx < prev.length ∧ idx < curr.length then
        some (euclidDistXY (prev.getD idx ((0 : ℝ), (0 : ℝ), (0 : ℝ)))
          (curr.getD idx ((0 : ℝ), (0 : ℝ), (0 : ℝ))))
      else none)
    if movements.isEmpty then 1
    else
      let avg_movement := npMean movements
      let stability := 1 / (1 + avg_movement * 100)
      min 1 (max 0 stability)

/-- Mutable state threaded through the sampling loop of `_analyze_video`:
the analyzed-frame counter, the two score lists, and `previous_landmarks`. -/
structure LoopState where
  analyzed_frames : ℕ
  face_quality_scores : List ℝ
  landmark_stability_scores : List ℝ
  previous_landmarks : Option Landmarks

/-- Loop state before the first iteration of `_analyze_video`. -/
def initState : LoopState :=
  { analyzed_frames := 0
    face_quality_scores := []
    landmark_stability_scores := []
    previous_landmarks := none }

/-- Body of the sampled-frame branch of the loop in `_analyze_video`:
on a face-bearing frame append the quality score, compute a stability
score when `previous_landmarks is not None`, store the new landmarks and
bump the counter; otherwise leave the state unchanged. -/
noncomputable def processFrame (f : FrameAnalysis) (st : LoopState) : LoopState :=
  if f.has_face then
    { analyzed_frames := st.analyzed_frames + 1
      face_quality_scores := st.face_quality_scores ++ [f.face_quality]
      landmark_stability_scores :=
        match st.previous_landmarks with
        | some prev =>
            st.landmark_stability_scores ++
              [calculate_landmark_stability (some prev) f.landmarks]
        | none => st.landmark_stability_scores
      previous_landmarks := f.landmarks }
  else st

/-- The `while cap.isOpened() and analyzed_frames < 50` loop of
`_analyze_video`: walk the remaining frames carrying the running frame
index, process a frame only when its index is a multiple of
`sample_interval`, stop on exhaustion or once 50 frames are analyzed. -/
noncomputable def analyzeLoop (sample_interval : ℕ) :
    List FrameAnalysis → ℕ → LoopState → LoopState
  | [], _, st => st
  | f :: rest, frame_idx, st =>
    if st.analyzed_frames < 50 then
      analyzeLoop sample_interval rest (frame_idx + 1)
        (if frame_idx % sample_interval = 0 then processFrame f st else st)
    else st

/-- The result-dictionary construction at the end of `_analyze_video`
(`np.mean(...) if xs else default` patterns included). -/
noncomputable def finalizeResult (cap : VideoCapture) (st : LoopState) :
    AnalysisOk ℝ :=
  { total_frames := cap.frame_count
    analyzed_frames := st.analyzed_frames
    duration := if 0 < cap.fps then (cap.frame_count : ℝ) / cap.fps else 0
    face_detected_frames := st.face_quality_scores.length
    average_face_quality :=
      if st.face_quality_scores.isEmpty then 0 else npMean st.face_quality_scores
    landmark_stability :=
      if st.landmark_stability_scores.isEmpty then 1
      else npMean st.landmark_stability_scores
    quality_variance :=
      if st.face_quality_scores.isEmpty then 0 else npVar st.face_quality_scores }

/-- Final loop state of `_analyze_video` on an opened capture. -/
noncomputable def loopResult (cap : VideoCapture) : LoopState :=
  analyzeLoop (max 1 (cap.frame_count / 50)) cap.frames 0 initState

/-- `_analyze_video`: raise (and immediately catch into the error
dictionary) when the capture is not opened, otherwise run the sampling
loop with `sample_interval = max(1, frame_count // 50)` and build the
metrics dictionary. -/
noncomputable def analyze_video (cap : VideoCapture) : AnalysisDict ℝ :=
  if cap.opened = false then AnalysisDict.err "Could not open video file"
  else AnalysisDict.ok (finalizeResult cap (loopResult cap))

/-- `_interpret_analysis`. `fmt` stands for Python's float formatting
(the `f"{x:.3f}"` interpolation), irrelevant to verdict and confidence.
The record always carries the metric fields, so the `.get` defaults of the
source are never consulted. -/
def interpret_analysis {α : Type} [LinearOrderedField α] (fmt : α → String) :
    AnalysisDict α → VerificationVerdict × α × String
  | AnalysisDict.err e =>
      (VerificationVerdict.INCONCLUSIVE, 0, "Analysis error: " ++ e)
  | AnalysisDict.ok a =>
    if a.analyzed_frames < 5 then
      (VerificationVerdict.INCONCLUSIVE, 0,
        "Insufficient frames analyzed for reliable detection")
    else
      let avg_quality := a.average_face_quality
      let quality_variance := a.quality_variance
      let landmark_stability := a.landmark_stability
      let suspicious_indicators : ℕ :=
        (if quality_variance > 1 / 10 then 1 else 0) +
        (if landmark_stability < 7 / 10 then 1 else 0) +
        (if avg_quality > 19 / 20 then 1 else if avg_quality < 3 / 10 then 1 else 0)
      let total_indicators : ℕ := 3
      if total_indicators = 0 then
        (VerificationVerdict.INCONCLUSIVE, 0, "Unable to analyze video content")
      else
        let suspicion_ratio : α :=
          (suspicious_indicators : α) / (total_indicators : α)
        if suspicion_ratio ≥ 3 / 5 then
          (VerificationVerdict.FAKE,
            min (9 / 10) (1 / 2 + suspicion_ratio * (2 / 5)),
            "Video shows " ++ toString suspicious_indicators ++ "/" ++
              toString total_indicators ++
              " deepfake indicators. Face quality variance: " ++
              fmt quality_variance ++ ", landmark stability: " ++
              fmt landmark_stability)
        else if suspicion_ratio ≤ 3 / 10 then
          (VerificationVerdict.REAL,
            min (9 / 10) (1 / 2 + (1 - suspicion_ratio) * (2 / 5)),
            "Video appears authentic with " ++ toString suspicious_indicators ++
              "/" ++ toString total_indicators ++
              " concerning indicators. Analysis shows consistent facial features and natural movement patterns.")
        else
          (VerificationVerdict.INCONCLUSIVE, 1 / 2,
            "Mixed indicators (" ++ toString suspicious_indicators ++ "/" ++
              toString total_indicators ++
              ") make definitive classification difficult. Manual review recommended.")

/-- The service object: only the `is_initialized` flag matters to the
control flow under study. -/
structure DeepfakeDetectionService where
  is_initialized : Bool

/-- The freshly constructed service (`__init__`): not initialized. -/
def serviceDefault : DeepfakeDetectionService := { is_initialized := false }

/-- Successful completion of the service's async initialization routine:
sets `is_initialized` to true. -/
def initService (s : DeepfakeDetectionService) : DeepfakeDetectionService :=
  { s with is_initialized := true }

/-- `detect_deepfake`: raises `RuntimeError` (the `Except.error` arm) when
the service is not initialized; otherwise analyzes and interprets. The
`try/except` around the pure analysis is dead (nothing inside throws),
so the accepted path always returns a triple. -/
noncomputable def detect_deepfake (s : DeepfakeDetectionService)
    (fmt : ℝ → String) (cap : VideoCapture) :
    Except String (VerificationVerdict × ℝ × String) :=
  if s.is_initialized = false then
    Except.error "Deepfake detection service not initialized"
  else
    Except.ok (interpret_analysis fmt (analyze_video cap))

/-!  Specification-side definitions, written from the spec's words, to be
compared with the source-side definitions above. -/

/-- Modelled from the spec (§4.2): stability between two landmark sets is
the clamp to `[0,1]` of `1 / (1 + avg_movement * 100)`, where
`avg_movement` is the mean, over the key indices lying within the length
of both sets, of the planar Euclidean distance between corresponding
points; if either set is empty/absent or no key index is in range, the
score is exactly `1.0`. -/
noncomputable def stabilitySpec (prev_landmarks curr_landmarks : Option Landmarks) : ℝ :=
  let prev := prev_landmarks.getD []
  let curr := curr_landmarks.getD []
  let idxs := key_indices.filter
    (fun i => decide (i < prev.length ∧ i < curr.length))
  if prev.isEmpty || curr.isEmpty || idxs.isEmpty then 1
  else
    let avg_movement := npMean (idxs.map (fun i =>
      euclidDistXY (prev.getD i ((0 : ℝ), (0 : ℝ), (0 : ℝ)))
        (curr.getD i ((0 : ℝ), (0 : ℝ), (0 : ℝ)))))
    min 1 (max 0 (1 / (1 + avg_movement * 100)))

/-- Modelled from the spec (§4.1): the frames actually submitted for
feature extraction — those whose index is a multiple of the stride. -/
def sampledFrames (sample_interval : ℕ) (frames : List FrameAnalysis) :
    List FrameAnalysis :=
  ((List.enumFrom 0 frames).filter
    (fun p => p.1 % sample_interval == 0)).map Prod.snd

/-- Modelled from the spec (§4.1): fold the per-frame processing over the
selected frames, stopping as soon as 50 face-bearing frames have been
analyzed. -/
noncomputable def specFold : List FrameAnalysis → LoopState → LoopState
  | [], st => st
  | f :: rest, st =>
    if st.analyzed_frames < 50 then specFold rest (processFrame f st) else st

/-- Count of fired fusion indicators (claim vocabulary for the
`suspicious_indicators` counter of `_interpret_analysis`). -/
def firedCount {α : Type} [LinearOrderedField α] (a : AnalysisOk α) : ℕ :=
  (if a.quality_variance > 1 / 10 then 1 else 0) +
  (if a.landmark_stability < 7 / 10 then 1 else 0) +
  (if a.average_face_quality > 19 / 20 ∨ a.average_face_quality < 3 / 10 then 1 else 0)

/-- The verdict as a function of the fired-indicator count. -/
def verdictOfCount (k : ℕ) : VerificationVerdict :=
  if 2 ≤ k then VerificationVerdict.FAKE
  else if k = 0 then VerificationVerdict.REAL
  else VerificationVerdict.INCONCLUSIVE

/-- The confidence as a function of the fired-indicator count. -/
def confOfCount {α : Type} [LinearOrderedField α] (k : ℕ) : α :=
  if 2 ≤ k then min (9 / 10) (1 / 2 + (k : α) / 3 * (2 / 5))
  else if k = 0 then 9 / 10
  else 1 / 2

/-- Suspicion order on verdicts: REAL < INCONCLUSIVE < FAKE. -/
def verdictRank : VerificationVerdict → ℕ
  | VerificationVerdict.REAL => 0
  | VerificationVerdict.INCONCLUSIVE => 1
  | VerificationVerdict.FAKE => 2

/-! ## Theorems -/

/-- Characterization of `_interpret_analysis` past the insufficient-evidence
gate: verdict and confidence are functions of the fired-indicator count. -/
theorem interpret_ok_eq {α : Type} [LinearOrderedField α] (fmt : α → String)
    (a : AnalysisOk α) (h : ¬ a.analyzed_frames < 5) :
    (interpret_analysis fmt (AnalysisDict.ok a)).1 = verdictOfCount (firedCount a) ∧
    (interpret_analysis fmt (AnalysisDict.ok a)).2.1 = (confOfCount (firedCount a) : α) := by
  by_cases h1 : a.quality_variance > (1 : α) / 10 <;>
    by_cases h2 : a.landmark_stability < (7 : α) / 10 <;>
      by_cases h3 : a.average_face_quality > (19 : α) / 20 <;>
        by_cases h4 : a.average_face_quality < (3 : α) / 10 <;>
          norm_num [interpret_analysis, h, h1, h2, h3, h4, firedCount,
            verdictOfCount, confOfCount]

/-- The fired-indicator count is at most 3. -/
theorem firedCount_le_three {α : Type} [LinearOrderedField α] (a : AnalysisOk α) :
    firedCount a ≤ 3 := by
  unfold firedCount
  split_ifs <;> omega

/-- C2: for every successfully analyzed session with `analyzed_frames < 5`,
the synthesizer returns `INCONCLUSIVE`, confidence exactly `0`, and the
explanation "Insufficient frames analyzed for reliable detection",
regardless of the metric values. -/
theorem insufficient_frames_gate {α : Type} [LinearOrderedField α]
    (fmt : α → String) (a : AnalysisOk α) (h : a.analyzed_frames < 5) :
    interpret_analysis fmt (AnalysisDict.ok a) =
      (VerificationVerdict.INCONCLUSIVE, 0,
        "Insufficient frames analyzed for reliable detection") := by
  simp [interpret_analysis, h]

/-- Witness for C2 at a concrete input. -/
theorem insufficient_frames_gate_witness :
    interpret_analysis (fun _ => "") (AnalysisDict.ok
        (AnalysisOk.mk 100 3 (0 : ℚ) 3 (97 / 100) (2 / 5) (1 / 2))) =
      (VerificationVerdict.INCONCLUSIVE, 0,
        "Insufficient frames analyzed for reliable detection") :=
  insufficient_frames_gate (fun _ => "")
    (AnalysisOk.mk 100 3 (0 : ℚ) 3 (97 / 100) (2 / 5) (1 / 2)) (by decide)

/-- C1: past the gate and with no error, verdict and confidence are the
stated function of the fired-indicator count `k`: `k = 0` gives REAL with
confidence `0.9`; `k = 1` gives INCONCLUSIVE with confidence `0.5`;
`k = 2` gives FAKE with confidence `min(0.9, 0.5 + (2/3)*0.4)`;
`k = 3` gives FAKE with confidence `0.9`. -/
theorem verdict_determined_by_fired_count {α : Type} [LinearOrderedField α]
    (fmt : α → String) (a : AnalysisOk α) (h : 5 ≤ a.analyzed_frames) :
    ((interpret_analysis fmt (AnalysisDict.ok a)).1,
      (interpret_analysis fmt (AnalysisDict.ok a)).2.1) =
      (if firedCount a = 0 then
        (VerificationVerdict.REAL, (9 / 10 : α))
      else if firedCount a = 1 then
        (VerificationVerdict.INCONCLUSIVE, (1 / 2 : α))
      else if firedCount a = 2 then
        (VerificationVerdict.FAKE, min (9 / 10) ((1 : α) / 2 + 2 / 3 * (2 / 5)))
      else
        (VerificationVerdict.FAKE, (9 / 10 : α))) := by
  obtain ⟨hv, hc⟩ := interpret_ok_eq fmt a (by omega)
  have hk := firedCount_le_three a
  rw [Prod.mk.injEq, hv, hc]
  interval_cases hkk : firedCount a <;>
    norm_num [verdictOfCount, confOfCount]

/-- Witness for C1 at a concrete input (two indicators fire). -/
theorem verdict_determined_by_fired_count_witness :
    ((interpret_analysis (fun _ => "") (AnalysisDict.ok
        (AnalysisOk.mk 100 50 (0 : ℚ) 50 (1 / 2) (3 / 5) (1 / 5)))).1,
      (interpret_analysis (fun _ => "") (AnalysisDict.ok
        (AnalysisOk.mk 100 50 (0 : ℚ) 50 (1 / 2) (3 / 5) (1 / 5)))).2.1) =
      (VerificationVerdict.FAKE, min (9 / 10) ((1 : ℚ) / 2 + 2 / 3 * (2 / 5))) := by
  have := verdict_determined_by_fired_count (fun _ => "")
    (AnalysisOk.mk 100 50 (0 : ℚ) 50 (1 / 2) (3 / 5) (1 / 5)) (by decide)
  have hk : firedCount (AnalysisOk.mk 100 50 (0 : ℚ) 50 (1 / 2) (3 / 5) (1 / 5)) = 2 := by
    unfold firedCount
    norm_num
  rw [hk] at this
  simpa using this

/-- The verdict-of-count function is monotone for the suspicion order. -/
theorem verdictOfCount_rank_mono {k k' : ℕ} (h : k ≤ k') :
    verdictRank (verdictOfCount k) ≤ verdictRank (verdictOfCount k') := by
  unfold verdictOfCount
  split_ifs <;> simp [verdictRank] <;> omega

/-- C7: for fixed variance, average quality and `analyzed_frames ≥ 5`,
replacing the stability value `s1` by a smaller `s2 < 0.7` can only move
the verdict toward FAKE in the order REAL < INCONCLUSIVE < FAKE. -/
theorem stability_monotone {α : Type} [LinearOrderedField α] (fmt : α → String)
    (a : AnalysisOk α) (s1 s2 : α) (h : 5 ≤ a.analyzed_frames)
    (h12 : s2 < s1) (hs2 : s2 < 7 / 10) :
    verdictRank (interpret_analysis fmt
        (AnalysisDict.ok { a with landmark_stability := s1 })).1 ≤
      verdictRank (interpret_analysis fmt
        (AnalysisDict.ok { a with landmark_stability := s2 })).1 := by
  obtain ⟨hv1, _⟩ := interpret_ok_eq fmt { a with landmark_stability := s1 }
    (by dsimp only; omega)
  obtain ⟨hv2, _⟩ := interpret_ok_eq fmt { a with landmark_stability := s2 }
    (by dsimp only; omega)
  rw [hv1, hv2]
  apply verdictOfCount_rank_mono
  unfold firedCount
  dsimp only
  rw [if_pos hs2]
  split_ifs <;> omega

/-- Witness for C7 at a concrete input. -/
theorem stability_monotone_witness :
    verdictRank (interpret_analysis (fun _ => "")
        (AnalysisDict.ok { AnalysisOk.mk 100 50 (0 : ℚ) 50 (1 / 2) (0 : ℚ) (1 / 5) with
          landmark_stability := 4 / 5 })).1 ≤
      verdictRank (interpret_analysis (fun _ => "")
        (AnalysisDict.ok { AnalysisOk.mk 100 50 (0 : ℚ) 50 (1 / 2) (0 : ℚ) (1 / 5) with
          landmark_stability := 1 / 2 })).1 :=
  stability_monotone (fun _ => "") (AnalysisOk.mk 100 50 (0 : ℚ) 50 (1 / 2) (0 : ℚ) (1 / 5))
    (4 / 5) (1 / 2) (by norm_num) (by norm_num) (by norm_num)

/-- Bounds for the confidence-of-count function. -/
theorem confOfCount_bounds {α : Type} [LinearOrderedField α] (k : ℕ) :
    0 ≤ (confOfCount k : α) ∧ (confOfCount k : α) ≤ 1 := by
  unfold confOfCount
  split_ifs
  · refine ⟨le_min (by norm_num) (by positivity), ?_⟩
    exact le_trans (min_le_left _ _) (by norm_num)
  · constructor <;> norm_num
  · constructor <;> norm_num

/-- C8: for every input to the verdict synthesizer, error and
insufficient-evidence branches included, the confidence lies in `[0,1]`
and the verdict is one of REAL, FAKE, INCONCLUSIVE. -/
theorem synthesizer_output_wellformed {α : Type} [LinearOrderedField α]
    (fmt : α → String) (d : AnalysisDict α) :
    (0 ≤ (interpret_analysis fmt d).2.1 ∧ (interpret_analysis fmt d).2.1 ≤ 1) ∧
    ((interpret_analysis fmt d).1 = VerificationVerdict.REAL ∨
      (interpret_analysis fmt d).1 = VerificationVerdict.FAKE ∨
      (interpret_analysis fmt d).1 = VerificationVerdict.INCONCLUSIVE) := by
  constructor
  · cases d with
    | err e => simp [interpret_analysis]
    | ok a =>
      by_cases hf : a.analyzed_frames < 5
      · simp [interpret_analysis, hf]
      · obtain ⟨_, hc⟩ := interpret_ok_eq fmt a hf
        rw [hc]
        exact confOfCount_bounds _
  · cases hv : (interpret_analysis fmt d).1 <;> simp

/-- C3: once a session is accepted (service initialized), `detect_deepfake`
always returns a triple, and when the Frame Source cannot be opened the
triple is INCONCLUSIVE with confidence `0` and an explanation containing
the underlying error message "Could not open video file". -/
theorem pipeline_total_and_open_error (fmt : ℝ → String) (cap : VideoCapture) :
    (∃ t, detect_deepfake { is_initialized := true } fmt cap = Except.ok t) ∧
    (cap.opened = false →
      detect_deepfake { is_initialized := true } fmt cap =
        Except.ok (VerificationVerdict.INCONCLUSIVE, 0,
          "Analysis error: " ++ "Could not open video file")) := by
  constructor
  · exact ⟨interpret_analysis fmt (analyze_video cap), by simp [detect_deepfake]⟩
  · intro h
    simp [detect_deepfake, analyze_video, h, interpret_analysis]

/-- Witness for C3 at a concrete unopenable capture. -/
theorem pipeline_total_and_open_error_witness :
    detect_deepfake { is_initialized := true } (fun _ => "")
        (VideoCapture.mk false 0 0 []) =
      Except.ok (VerificationVerdict.INCONCLUSIVE, 0,
        "Analysis error: " ++ "Could not open video file") :=
  (pipeline_total_and_open_error (fun _ => "") (VideoCapture.mk false 0 0 [])).2 rfl

/-- C10: calling `detect_deepfake` on the freshly constructed service
(before initialization completed) raises `RuntimeError` instead of
returning a triple, while after successful initialization it always
returns a triple. -/
theorem not_initialized_raises (fmt : ℝ → String) (cap : VideoCapture) :
    detect_deepfake serviceDefault fmt cap =
      Except.error "Deepfake detection service not initialized" ∧
    ∃ t, detect_deepfake (initService serviceDefault) fmt cap = Except.ok t := by
  constructor
  · simp [detect_deepfake, serviceDefault]
  · exact ⟨interpret_analysis fmt (analyze_video cap),
      by simp [detect_deepfake, initService, serviceDefault]⟩

/-- C9: on a face-bearing frame with no landmark list while a previous
landmark set is retained, the tracker still records a stability score and
it is exactly `1.0`; the retained set becomes the absent value, so the
immediately following face-bearing frame records no score and the tracker
behaves as freshly reset. -/
theorem tracker_reset_on_missing_landmarks (st : LoopState) (pl : Landmarks)
    (f g : FrameAnalysis) (hprev : st.previous_landmarks = some pl)
    (hf : f.has_face = true) (hl : f.landmarks = none) (hg : g.has_face = true) :
    (processFrame f st).landmark_stability_scores =
      st.landmark_stability_scores ++ [1] ∧
    (processFrame f st).previous_landmarks = none ∧
    (processFrame g (processFrame f st)).landmark_stability_scores =
      (processFrame f st).landmark_stability_scores ∧
    (processFrame g (processFrame f st)).previous_landmarks = g.landmarks := by
  have hcalc : calculate_landmark_stability (some pl) none = 1 := by
    simp [calculate_landmark_stability, isTruthy]
  refine ⟨?_, ?_, ?_, ?_⟩ <;> simp [processFrame, hf, hg, hprev, hl, hcalc]

/-- Witness for C9 at a concrete state and concrete frames. -/
theorem tracker_reset_on_missing_landmarks_witness :
    (processFrame (FrameAnalysis.mk true 0 none 1)
        (LoopState.mk 0 [] [] (some []))).landmark_stability_scores = [] ++ [1] ∧
    (processFrame (FrameAnalysis.mk true 0 none 1)
        (LoopState.mk 0 [] [] (some []))).previous_landmarks = none ∧
    (processFrame (FrameAnalysis.mk true 0 none 1)
        (processFrame (FrameAnalysis.mk true 0 none 1)
          (LoopState.mk 0 [] [] (some [])))).landmark_stability_scores =
      (processFrame (FrameAnalysis.mk true 0 none 1)
        (LoopState.mk 0 [] [] (some []))).landmark_stability_scores ∧
    (processFrame (FrameAnalysis.mk true 0 none 1)
        (processFrame (FrameAnalysis.mk true 0 none 1)
          (LoopState.mk 0 [] [] (some [])))).previous_landmarks =
      (FrameAnalysis.mk true 0 none 1).landmarks :=
  tracker_reset_on_missing_landmarks (LoopState.mk 0 [] [] (some [])) []
    (FrameAnalysis.mk true 0 none 1) (FrameAnalysis.mk true 0 none 1)
    rfl rfl rfl rfl

/-- A guarded `filterMap` is a `map` over a `filter`. -/
theorem filterMap_ite_eq_map_filter {β γ : Type} (p : β → Prop) [DecidablePred p]
    (f : β → γ) (l : List β) :
    l.filterMap (fun x => if p x then some (f x) else none) =
      (l.filter (fun x => decide (p x))).map f := by
  induction l with
  | nil => rfl
  | cons x xs ih =>
    by_cases hx : p x <;>
      simp [List.filterMap_cons, List.filter_cons, hx, ih]

/-- C4: `_calculate_landmark_stability` computes exactly the
spec-described score: the clamp to `[0,1]` of `1/(1 + avg_movement*100)`
with `avg_movement` the mean planar Euclidean distance over the key
indices in range of both sets, and exactly `1.0` when either set is
empty/absent or no key index is in range. -/
theorem stability_matches_spec (pl cl : Option Landmarks) :
    calculate_landmark_stability pl cl = stabilitySpec pl cl := by
  rcases pl with _ | prev
  · simp [calculate_landmark_stability, stabilitySpec, isTruthy]
  · rcases cl with _ | curr
    · rcases prev with _ | ⟨p, ps⟩ <;>
        simp [calculate_landmark_stability, stabilitySpec, isTruthy]
    · rcases prev with _ | ⟨p, ps⟩
      · simp [calculate_landmark_stability, stabilitySpec, isTruthy]
      · rcases curr with _ | ⟨c, cs⟩
        · simp [calculate_landmark_stability, stabilitySpec, isTruthy]
        · simp only [calculate_landmark_stability, stabilitySpec, isTruthy,
            Bool.not_true, Bool.or_self, Bool.false_or, if_false,
            Option.getD_some, List.isEmpty_cons, Bool.not_false]
          rw [filterMap_ite_eq_map_filter
            (fun idx => idx < (p :: ps).length ∧ idx < (c :: cs).length)
            (fun idx => euclidDistXY ((p :: ps).getD idx ((0 : ℝ), (0 : ℝ), (0 : ℝ)))
              ((c :: cs).getD idx ((0 : ℝ), (0 : ℝ), (0 : ℝ))))]
          rcases hl : key_indices.filter
              (fun i => decide (i < (p :: ps).length ∧ i < (c :: cs).length)) with
            _ | ⟨i, is2⟩ <;> simp [hl]

/-- The spec-side fold is inert once 50 frames have been analyzed. -/
theorem specFold_of_budget_spent (l : List FrameAnalysis) (st : LoopState)
    (h : ¬ st.analyzed_frames < 50) : specFold l st = st := by
  cases l <;> simp [specFold, h]

/-- The walk of `_analyze_video` equals the spec-side fold over just the
frames whose index is a multiple of the stride. -/
theorem analyzeLoop_eq_specFold (si : ℕ) (frames : List FrameAnalysis)
    (idx : ℕ) (st : LoopState) :
    analyzeLoop si frames idx st =
      specFold (((List.enumFrom idx frames).filter
        (fun p => p.1 % si == 0)).map Prod.snd) st := by
  induction frames generalizing idx st with
  | nil => rfl
  | cons f rest ih =>
    by_cases h50 : st.analyzed_frames < 50
    · by_cases hm : idx % si = 0
      · simp [analyzeLoop, List.enumFrom, List.filter_cons, hm, h50, specFold, ih]
      · simp [analyzeLoop, List.enumFrom, List.filter_cons, hm, h50, specFold, ih]
    · simp [analyzeLoop, h50, specFold_of_budget_spent _ _ h50]

/-- C5: on an opened capture, `_analyze_video` uses stride
`max(1, frame_count // 50)` and its result is exactly the finalization of
the spec-side fold that processes precisely the walked frames whose index
is a multiple of that stride, stopping at exhaustion or at 50
face-bearing analyzed frames; face-less sampled frames pass through the
fold without advancing the analyzed count. -/
theorem sampler_matches_spec (cap : VideoCapture) (h : cap.opened = true) :
    analyze_video cap = AnalysisDict.ok (finalizeResult cap
      (specFold (sampledFrames (max 1 (cap.frame_count / 50)) cap.frames)
        initState)) := by
  simp [analyze_video, h, loopResult, sampledFrames, analyzeLoop_eq_specFold]

/-- Witness for C5 at a concrete capture. -/
theorem sampler_matches_spec_witness :
    analyze_video (VideoCapture.mk true 0 0 []) =
      AnalysisDict.ok (finalizeResult (VideoCapture.mk true 0 0 [])
        (specFold (sampledFrames
          (max 1 ((VideoCapture.mk true 0 0 []).frame_count / 50))
          (VideoCapture.mk true 0 0 []).frames) initState)) :=
  sampler_matches_spec (VideoCapture.mk true 0 0 []) rfl

/-- The per-frame step preserves the tracker invariant: a retained
landmark set implies at least one collected quality score, and a recorded
stability score implies at least two. -/
theorem processFrame_inv (f : FrameAnalysis) (st : LoopState)
    (h1 : st.previous_landmarks ≠ none → 1 ≤ st.face_quality_scores.length)
    (h2 : st.landmark_stability_scores ≠ [] → 2 ≤ st.face_quality_scores.length) :
    ((processFrame f st).previous_landmarks ≠ none →
      1 ≤ (processFrame f st).face_quality_scores.length) ∧
    ((processFrame f st).landmark_stability_scores ≠ [] →
      2 ≤ (processFrame f st).face_quality_scores.length) := by
  by_cases hf : f.has_face
  · cases hp : st.previous_landmarks with
    | none =>
      refine ⟨?_, ?_⟩ <;> simp [processFrame, hf, hp]
      intro hne
      have := h2 hne
      omega
    | some prev =>
      refine ⟨?_, ?_⟩ <;> simp [processFrame, hf, hp]
      have := h1 (by simp [hp])
      omega
  · simp only [processFrame, hf, if_false, Bool.false_eq_true]
    exact ⟨h1, h2⟩

/-- The whole walk preserves the tracker invariant. -/
theorem analyzeLoop_inv (si : ℕ) (frames : List FrameAnalysis) (idx : ℕ)
    (st : LoopState)
    (h1 : st.previous_landmarks ≠ none → 1 ≤ st.face_quality_scores.length)
    (h2 : st.landmark_stability_scores ≠ [] → 2 ≤ st.face_quality_scores.length) :
    ((analyzeLoop si frames idx st).previous_landmarks ≠ none →
      1 ≤ (analyzeLoop si frames idx st).face_quality_scores.length) ∧
    ((analyzeLoop si frames idx st).landmark_stability_scores ≠ [] →
      2 ≤ (analyzeLoop si frames idx st).face_quality_scores.length) := by
  induction frames generalizing idx st with
  | nil => exact ⟨h1, h2⟩
  | cons f rest ih =>
    by_cases h50 : st.analyzed_frames < 50
    · by_cases hm : idx % si = 0
      · have hp := processFrame_inv f st h1 h2
        simpa [analyzeLoop, h50, hm] using ih (idx + 1) (processFrame f st) hp.1 hp.2
      · simpa [analyzeLoop, h50, hm] using ih (idx + 1) st h1 h2
    · simpa [analyzeLoop, h50] using ⟨h1, h2⟩

/-- Zero or one face-bearing frame forces an empty stability-score list. -/
theorem few_faces_no_pairs (cap : VideoCapture)
    (h : (loopResult cap).face_quality_scores.length ≤ 1) :
    (loopResult cap).landmark_stability_scores = [] := by
  have hinv := analyzeLoop_inv (max 1 (cap.frame_count / 50)) cap.frames 0
    initState (by simp [initState]) (by simp [initState])
  rw [loopResult] at h ⊢
  by_contra hne
  have := hinv.2 hne
  omega

/-- C6 counterexample: two face-bearing frames, the first carrying no
landmark list, are analyzed yet no stability pair is ever computed — the
"no pairs iff at most one face-bearing frame" characterization is false. -/
theorem aggregator_two_faces_no_pairs :
    (loopResult (VideoCapture.mk true 2 0
        [FrameAnalysis.mk true 0 none 1,
          FrameAnalysis.mk true 0 (some []) 1])).face_quality_scores.length = 2 ∧
    (loopResult (VideoCapture.mk true 2 0
        [FrameAnalysis.mk true 0 none 1,
          FrameAnalysis.mk true 0 (some []) 1])).landmark_stability_scores = [] := by
  constructor <;>
    simp [loopResult, analyzeLoop, processFrame, initState]

/-- C6 (amended): on finalize the aggregator emits the mean of the
quality scores (`0` if none), their population variance (`0` if none),
and the mean of the per-pair stability scores, defaulting to `1.0`
exactly when no pairs were computed; zero or one face-bearing frame
guarantees no pairs (so one face-bearing frame yields stability `1.0`),
but no pairs can also occur with two or more face-bearing frames. -/
theorem aggregator_finalize (cap : VideoCapture) (h : cap.opened = true) :
    analyze_video cap = AnalysisDict.ok (finalizeResult cap (loopResult cap)) ∧
    ((loopResult cap).face_quality_scores.isEmpty = true →
      (finalizeResult cap (loopResult cap)).average_face_quality = 0 ∧
      (finalizeResult cap (loopResult cap)).quality_variance = 0) ∧
    ((loopResult cap).face_quality_scores.isEmpty = false →
      (finalizeResult cap (loopResult cap)).average_face_quality =
        (loopResult cap).face_quality_scores.sum /
          (loopResult cap).face_quality_scores.length ∧
      (finalizeResult cap (loopResult cap)).quality_variance =
        ((loopResult cap).face_quality_scores.map
          (fun x => (x - npMean (loopResult cap).face_quality_scores) ^ 2)).sum /
          (loopResult cap).face_quality_scores.length) ∧
    ((loopResult cap).landmark_stability_scores.isEmpty = true →
      (finalizeResult cap (loopResult cap)).landmark_stability = 1) ∧
    ((loopResult cap).landmark_stability_scores.isEmpty = false →
      (finalizeResult cap (loopResult cap)).landmark_stability =
        (loopResult cap).landmark_stability_scores.sum /
          (loopResult cap).landmark_stability_scores.length) ∧
    ((loopResult cap).face_quality_scores.length ≤ 1 →
      (loopResult cap).landmark_stability_scores = [] ∧
      (finalizeResult cap (loopResult cap)).landmark_stability = 1) := by
  refine ⟨by simp [analyze_video, h], ?_, ?_, ?_, ?_, ?_⟩
  · intro he
    simp [finalizeResult, he]
  · intro he
    constructor <;> simp [finalizeResult, he, npMean, npVar, List.length_map]
  · intro he
    simp [finalizeResult, he]
  · intro he
    simp [finalizeResult, he, npMean]
  · intro hle
    have hemp := few_faces_no_pairs cap hle
    exact ⟨hemp, by simp [finalizeResult, hemp]⟩

/-- Witness for C6 (amended) at a concrete capture. -/
theorem aggregator_finalize_witness :
    analyze_video (VideoCapture.mk true 0 0 []) =
      AnalysisDict.ok (finalizeResult (VideoCapture.mk true 0 0 [])
        (loopResult (VideoCapture.mk true 0 0 []))) :=
  (aggregator_finalize (VideoCapture.mk true 0 0 []) rfl).1
